import Mathlib

/-!
Shallow embedding of the minecraft-pbr-conversion texture converter.

The embedding models the channel re-encoding engine of the repository:
the per-pixel scalar transfer functions (`workflowConverter.ts`,
`bidirectionalWorkflowConverter.ts`), the channel extraction and
recombination (`channelExtractor.ts`), the two orchestrating texture
builders (`pbrConverter.ts` `createSpecularTexture`,
`bidirectionalConverter.ts` `createMERTexture` and the whole-image
subsurface scan), the format-detection heuristic (`formatDetector.ts`)
and the error-catching conversion entry points.

Machine integers are modelled as `Nat` (all channel values are unsigned
8-bit bytes, and every function of the source clamps its output into
[0,255] on byte-range inputs, so no wrap-around arises on the modelled
domain).  JavaScript floating-point subexpressions are modelled exactly:
each formula of the source is algebraically rewritten to an integer (or
rational) computation that provably agrees with the IEEE-double
evaluation on the byte-range domain; the derivation is recorded in a
comment next to each definition.  File and image I/O are external
collaborators and appear as an explicit environment record.
-/

set_option maxRecDepth 8192

namespace PBRConv

/-! ### Integer square root (structural, kernel-computable)

`Nat.sqrt` of this toolchain does not reduce inside `decide`, so the
floor square root is implemented here with a fuel-based structural
recursion (the classical digit recurrence `sqrt n = 2·sqrt (n/4)`
with a final correction step).  `isqrt_spec` proves it computes the
floor square root. -/

def isqrtAux : Nat → Nat → Nat
  | 0, n => n
  | fuel + 1, n =>
    if n < 2 then n
    else
      let s := 2 * isqrtAux fuel (n / 4)
      if (s + 1) * (s + 1) ≤ n then s + 1 else s

/-- Floor square root of a natural number; `n` itself is always enough fuel. -/
def isqrt (n : Nat) : Nat := isqrtAux n n

theorem isqrtAux_spec (fuel : Nat) : ∀ n, n ≤ fuel →
    isqrtAux fuel n * isqrtAux fuel n ≤ n ∧
    n < (isqrtAux fuel n + 1) * (isqrtAux fuel n + 1) := by
  induction fuel with
  | zero =>
    intro n hn
    interval_cases n
    simp [isqrtAux]
  | succ fuel ih =>
    intro n hn
    by_cases h2 : n < 2
    · interval_cases n <;> simp [isqrtAux]
    · have h4 : n / 4 ≤ fuel := by
        have : n / 4 < n := Nat.div_lt_self (by omega) (by omega)
        omega
      obtain ⟨hlo, hhi⟩ := ih (n / 4) h4
      have hne : ¬ n < 2 := h2
      simp only [isqrtAux, hne, if_false]
      set r := isqrtAux fuel (n / 4) with hr
      have hlow : (2 * r) * (2 * r) ≤ n := by
        have : 4 * (r * r) ≤ 4 * (n / 4) := by omega
        have h44 : 4 * (n / 4) ≤ n := Nat.mul_div_le n 4 |>.trans_eq (by ring_nf)
        nlinarith [Nat.mul_div_le n 4]
      have hhigh : n < (2 * r + 2) * (2 * r + 2) := by
        have hdiv : n / 4 + 1 ≤ (r + 1) * (r + 1) := hhi
        have : n < 4 * (n / 4 + 1) := by omega
        nlinarith
      by_cases hc : (2 * r + 1) * (2 * r + 1) ≤ n
      · rw [if_pos hc]
        refine ⟨hc, ?_⟩
        have h22 : 2 * r + 1 + 1 = 2 * r + 2 := by ring
        rw [h22]
        exact hhigh
      · rw [if_neg hc]
        exact ⟨hlow, by omega⟩

theorem isqrt_spec (n : Nat) :
    isqrt n * isqrt n ≤ n ∧ n < (isqrt n + 1) * (isqrt n + 1) :=
  isqrtAux_spec n n le_rfl

/-- Nearest integer to the real square root of `n` (never a tie:
`√n = k + 1/2` would need `4·n = (2k+1)²`, impossible by parity).
`round (√n) = ⌊(⌊√(4n)⌋ + 1) / 2⌋` is the standard identity. -/
def roundSqrt (n : Nat) : Nat := (isqrt (4 * n) + 1) / 2

/-! ### WorkflowConverter (packed → LabPBR scalar functions)

Source: `workflowConverter.ts`.  All functions take a byte 0–255 and
produce a byte 0–255. -/

namespace WorkflowConverter

/-- Source formula: `max(0, min(255, round(255 · (1 − sqrt(r/255)))))`.
Algebra: `255·(1−√(r/255)) = 255 − √(255·r)`, and
`round (255 − x) = 255 − round x` because `√(255·r)` is never midway
between integers (parity of `4·255·r`), so the double evaluation equals
`255 − roundSqrt (255·r)` for every byte `r` (the exact value is at
distance ≥ 4.9·10⁻⁴ from every half-integer, far above the double
rounding error).  For `r ≤ 255` the subtraction never underflows and
the result is already ≤ 255; the outer `min` mirrors the source clamp. -/
def roughnessToSmoothness (roughness : Nat) : Nat :=
  min 255 (255 - roundSqrt (255 * roughness))

/-- Source formula: `max(0, min(255, round(255 · (1 − s/255)²)))`.
For `s ≤ 255` this is `round ((255 − s)² / 255)`; rounding half-up of
`m/255` is `(m + 127) / 255` in integer division (a tie `m/255 = k + 1/2`
would need `2m = 255·(2k+1)`, impossible by parity), and the result is
already in range, the `min` mirroring the source clamp. -/
def smoothnessToRoughness (smoothness : Nat) : Nat :=
  min 255 (((255 - smoothness) * (255 - smoothness) + 127) / 255)

/-- Source: for `m > 200` return `min(255, 230 + floor((m − 200)/5))`;
otherwise `round(4 + (m/255)·(229 − 4))`.  The dielectric branch equals
`round((1020 + 225·m)/255) = (225·m + 1020 + 127) / 255` in integer
division (no ties: `255` is odd). -/
def metallicToF0 (metallic : Nat) : Nat :=
  if 200 < metallic then min 255 (230 + (metallic - 200) / 5)
  else (225 * metallic + 1147) / 255

/-- Source: `min(254, emissive)` (255 is the reserved LabPBR value). -/
def convertEmissive (emissive : Nat) : Nat := min 254 emissive

/-- Source: `metallic > 200`. -/
def isMetallic (metallic : Nat) : Bool := 200 < metallic

/-- Predefined-metal reflectance codes of `types.ts`. -/
def PredefinedMetal.Iron : Nat := 230
def PredefinedMetal.Gold : Nat := 231
def PredefinedMetal.Aluminum : Nat := 232
def PredefinedMetal.Chrome : Nat := 233
def PredefinedMetal.Copper : Nat := 234
def PredefinedMetal.Lead : Nat := 235
def PredefinedMetal.Platinum : Nat := 236
def PredefinedMetal.Silver : Nat := 237

/-- Source: colour-bucket heuristic choosing a predefined metal code,
defaulting to Iron. -/
def getPredefinedMetal (r g b : Nat) : Nat :=
  if 200 < r ∧ 150 < g ∧ b < 100 then PredefinedMetal.Gold
  else if 200 < r ∧ g < 150 ∧ b < 100 then PredefinedMetal.Copper
  else if 200 < r ∧ 200 < g ∧ 200 < b then PredefinedMetal.Silver
  else if 100 < r ∧ r < 200 ∧ 100 < g ∧ g < 200 ∧ 100 < b ∧ b < 200 then
    PredefinedMetal.Iron
  else PredefinedMetal.Iron

/-- Source: `0` when `s = 0`, else `65 + floor((s/255)·(255 − 65))`.
The floor equals `(s·190)/255` in integer division; on the byte domain
the double evaluation never crosses an integer boundary (the exact value
`38·s/51` is, when not an integer, at distance ≥ 1/51 from integers, and
at the six integer points the double product rounds exactly). -/
def convertSubsurface (subsurface : Nat) : Nat :=
  if subsurface = 0 then 0 else 65 + subsurface * 190 / 255

/-- Source: `round(porosity · 64)` for a porosity given in [0,1].
The input is a (floating-point) fraction, modelled as a rational;
`Math.round x = ⌊x + 1/2⌋` for non-negative `x`. -/
def convertPorosity (porosity : ℚ) : ℤ := ⌊porosity * 64 + 1 / 2⌋

end WorkflowConverter

/-! ### BidirectionalWorkflowConverter (LabPBR → packed scalar functions)

Source: `bidirectionalWorkflowConverter.ts`. -/

namespace BidirectionalWorkflowConverter

/-- Source: `b = sqrt(1 − min(1, (r/255)² + (g/255)²))`, NaN/negative
clamped to 0, scaled by 255 and rounded.  Since `255² = 65025`,
`255·√(1 − q) = √(65025 − (r² + g²))` when `r² + g² ≤ 65025`, and the
rounding is tie-free, giving `roundSqrt (65025 − (r² + g²))`; when
`r² + g² ≥ 65025` the `min` clamps the radicand to 0. -/
def reconstructNormalMapBlueChannel (r g : Nat) : Nat :=
  if 65025 ≤ r * r + g * g then 0
  else roundSqrt (65025 - (r * r + g * g))

end BidirectionalWorkflowConverter

/-! ### Data model

Source: `types.ts`.  A `Buffer` of bytes is modelled as a `List Nat`;
JavaScript reads out of range (`undefined`) are modelled by `List.getD`
with default 0, which agrees with the source wherever the buffer-length
invariant holds (all reads in range). -/

structure TextureData where
  width : Nat
  height : Nat
  data : List Nat
  channels : Nat
deriving DecidableEq, Repr

structure ChannelData where
  r : List Nat
  g : List Nat
  b : List Nat
  a : Option (List Nat)
  width : Nat
  height : Nat
deriving DecidableEq, Repr

structure MERChannels where
  metallic : List Nat
  emissive : List Nat
  roughness : List Nat
  subsurface : Option (List Nat)
deriving DecidableEq, Repr

/-! ### ChannelExtractor

Source: `channelExtractor.ts`.  `extractChannels` reads
`data[i·channels + c]` for each pixel `i`; `combineChannels` writes the
planes back in interleaved order (`data[i·channelCount + c] = plane c
at i`), which is exactly the flattening of one `channelCount`-byte
block per pixel. -/

namespace ChannelExtractor

def extractChannels (t : TextureData) : ChannelData :=
  let pixelCount := t.width * t.height
  { r := (List.range pixelCount).map (fun i => t.data.getD (i * t.channels) 0)
    g := (List.range pixelCount).map (fun i => t.data.getD (i * t.channels + 1) 0)
    b := (List.range pixelCount).map (fun i => t.data.getD (i * t.channels + 2) 0)
    a := if t.channels = 4 then
        some ((List.range pixelCount).map (fun i => t.data.getD (i * t.channels + 3) 0))
      else none
    width := t.width
    height := t.height }

def extractMERChannels (t : TextureData) : MERChannels :=
  let channels := extractChannels t
  { metallic := channels.r
    emissive := channels.g
    roughness := channels.b
    subsurface := channels.a }

def combineChannels (ch : ChannelData) : TextureData :=
  let pixelCount := ch.width * ch.height
  let channelCount := match ch.a with | some _ => 4 | none => 3
  { width := ch.width
    height := ch.height
    data := (List.range pixelCount).flatMap (fun i =>
      match ch.a with
      | some a => [ch.r.getD i 0, ch.g.getD i 0, ch.b.getD i 0, a.getD i 0]
      | none => [ch.r.getD i 0, ch.g.getD i 0, ch.b.getD i 0])
    channels := channelCount }

end ChannelExtractor

/-! ### PBRConverter.createSpecularTexture (packed → LabPBR orchestrator)

Source: `pbrConverter.ts` lines 101–167: per pixel, red = smoothness
from roughness, green = predefined metal (from base colour) on the
metallic branch else continuous F0, blue = subsurface packing when an
alpha plane is present and positive else the fixed default porosity
`convertPorosity(0.1)`, alpha = emission. -/

namespace PBRConverter

/-- Red plane of the specular output: smoothness from roughness. -/
def smoothnessPlane (mer : MERChannels) (pixelCount : Nat) : List Nat :=
  (List.range pixelCount).map (fun i =>
    WorkflowConverter.roughnessToSmoothness (mer.roughness.getD i 0))

/-- Green plane of the specular output: predefined metal (from the
base colour) on the metallic branch, else continuous F0. -/
def f0Plane (mer : MERChannels) (color : ChannelData) (pixelCount : Nat) :
    List Nat :=
  (List.range pixelCount).map (fun i =>
    if WorkflowConverter.isMetallic (mer.metallic.getD i 0) then
      WorkflowConverter.getPredefinedMetal
        (color.r.getD i 0) (color.g.getD i 0) (color.b.getD i 0)
    else
      WorkflowConverter.metallicToF0 (mer.metallic.getD i 0))

/-- Blue plane of the specular output: subsurface packing when an alpha
plane is present and positive; else the fixed default porosity. -/
def porosityPlane (mer : MERChannels) (pixelCount : Nat) : List Nat :=
  (List.range pixelCount).map (fun i =>
    match mer.subsurface with
    | some sub =>
      if 0 < sub.getD i 0 then WorkflowConverter.convertSubsurface (sub.getD i 0)
      else (WorkflowConverter.convertPorosity (1 / 10)).toNat
    | none => (WorkflowConverter.convertPorosity (1 / 10)).toNat)

/-- Alpha plane of the specular output: emission. -/
def emissionPlane (mer : MERChannels) (pixelCount : Nat) : List Nat :=
  (List.range pixelCount).map (fun i =>
    WorkflowConverter.convertEmissive (mer.emissive.getD i 0))

def createSpecularTexture (mer : MERChannels) (color : ChannelData)
    (width height : Nat) : TextureData :=
  let pixelCount := width * height
  ChannelExtractor.combineChannels
    { r := smoothnessPlane mer pixelCount
      g := f0Plane mer color pixelCount
      b := porosityPlane mer pixelCount
      a := some (emissionPlane mer pixelCount)
      width := width, height := height }

end PBRConverter

/-! ### BidirectionalConverter.createMERTexture and the document-level
subsurface decision

Source: `bidirectionalConverter.ts` lines 272–352 (`createMERTexture`,
with the metallic step function and roughness inversion written inline
in the source loop) and lines 164–187 (the whole-image subsurface scan,
the `_mer` / `_mers` suffix choice and the alpha-forcing loop). -/

namespace BidirectionalConverter

/-- Red plane of the MER output: the inline six-tier metallic step
function of the source loop. -/
def merMetallicPlane (specularChannels : ChannelData) (pixelCount : Nat) :
    List Nat :=
  (List.range pixelCount).map (fun i =>
    let f0 := specularChannels.g.getD i 0
    if 230 ≤ f0 then 255
    else if 200 ≤ f0 then 255
    else if 150 ≤ f0 then 230
    else if 100 ≤ f0 then 180
    else if 50 ≤ f0 then 100
    else 0)

/-- Green plane of the MER output: emissive is fixed to 0. -/
def merEmissivePlane (pixelCount : Nat) : List Nat :=
  (List.range pixelCount).map (fun _ => 0)

/-- Blue plane of the MER output: `255 − smoothness`. -/
def merRoughnessPlane (specularChannels : ChannelData) (pixelCount : Nat) :
    List Nat :=
  (List.range pixelCount).map (fun i => 255 - specularChannels.r.getD i 0)

/-- Alpha plane of the MER output: the specular blue value when ≥ 65
(subsurface), else 255 (fully opaque). -/
def merSubsurfacePlane (specularChannels : ChannelData) (pixelCount : Nat) :
    List Nat :=
  (List.range pixelCount).map (fun i =>
    if 65 ≤ specularChannels.b.getD i 0 then specularChannels.b.getD i 0
    else 255)

def createMERTexture (specularChannels normalChannels : ChannelData)
    (width height : Nat) : TextureData :=
  let pixelCount := width * height
  ChannelExtractor.combineChannels
    { r := merMetallicPlane specularChannels pixelCount
      g := merEmissivePlane pixelCount
      b := merRoughnessPlane specularChannels pixelCount
      a := some (merSubsurfacePlane specularChannels pixelCount)
      width := width, height := height }

/-- Whole-image scan of `convertLabPBRToBedrock` (lines 164–174): true
iff some pixel of the specular blue plane is ≥ 65. -/
def hasSubsurfaceScan (specularChannels : ChannelData) (pixelCount : Nat) : Bool :=
  (List.range pixelCount).any (fun i => 65 ≤ specularChannels.b.getD i 0)

/-- Filename suffix decision of `convertLabPBRToBedrock` (line 177). -/
def merFileSuffix (hasSubsurface : Bool) : String :=
  if hasSubsurface then "_mers" else "_mer"

/-- Alpha-forcing loop of `convertLabPBRToBedrock` (lines 180–187): for
each `i < pixelCount` it writes 255 at byte offset
`alphaOffset + i = pixelCount·3 + i` of the combined texture buffer
(out-of-range writes on a `Buffer` are no-ops, so only existing
positions change). -/
def forceAlphaOpaque (t : TextureData) : TextureData :=
  let pixelCount := t.width * t.height
  { t with
    data := t.data.mapIdx (fun j v =>
      if pixelCount * 3 ≤ j ∧ j < pixelCount * 3 + pixelCount then 255 else v) }

/-- MER texture actually written by `convertLabPBRToBedrock`: the
combined texture, alpha-forced when no subsurface pixel was found. -/
def merOutputTexture (specularChannels normalChannels : ChannelData)
    (width height : Nat) : TextureData :=
  let mer := createMERTexture specularChannels normalChannels width height
  if hasSubsurfaceScan specularChannels (width * height) then mer
  else forceAlphaOpaque mer

end BidirectionalConverter

/-! ### Path helpers

Node's `path` module (POSIX behaviour) restricted to what the sources
use: `dirname`, `basename` (with and without an extension argument),
`extname`, `join` of a directory with a file name.  Implemented over
`List Char` so that everything reduces in the kernel. -/

/-- Splits a character list at the last occurrence of `c`; `none` when
`c` does not occur.  Returns (part before, part after). -/
def charsSplitLast (c : Char) (l : List Char) : Option (List Char × List Char) :=
  let rev := l.reverse
  let suffix := rev.takeWhile (fun x => x ≠ c)
  if suffix.length = rev.length then none
  else some ((rev.drop (suffix.length + 1)).reverse, suffix.reverse)

def strEndsWithS (s suffix : String) : Bool :=
  if suffix.data.length ≤ s.data.length then
    (s.data.drop (s.data.length - suffix.data.length)) == suffix.data
  else false

def strDropRight (s : String) (n : Nat) : String :=
  String.mk (s.data.take (s.data.length - n))

def dirname (p : String) : String :=
  match charsSplitLast '/' p.data with
  | none => "."
  | some (before, _) => if before = [] then "/" else String.mk before

def basename (p : String) : String :=
  match charsSplitLast '/' p.data with
  | none => p
  | some (_, after) => String.mk after

def extname (p : String) : String :=
  let b := basename p
  match charsSplitLast '.' b.data with
  | none => ""
  | some (before, after) =>
    if before = [] then "" else String.mk ('.' :: after)

/-- Node `path.basename(p, ext)`: the basename with a trailing `ext`
stripped when it is a proper suffix. -/
def basenameStrip (p ext : String) : String :=
  let b := basename p
  if ext ≠ "" ∧ b ≠ ext ∧ strEndsWithS b ext = true then
    strDropRight b ext.data.length
  else b

/-- Node `path.join(dir, file)` for the shapes used here. -/
def pathJoin (d f : String) : String :=
  if d = "." then f
  else if d = "" then f
  else if strEndsWithS d "/" then d ++ f
  else d ++ "/" ++ f

/-- Removes the first occurrence of `pat` from a character list
(Node `String.replace` with a string pattern replaces only the first
occurrence). -/
def removeFirstAux (pat : List Char) : List Char → List Char
  | [] => []
  | c :: t =>
    if (c :: t).take pat.length == pat then (c :: t).drop pat.length
    else c :: removeFirstAux pat t

def removeFirst (s pat : String) : String :=
  if pat = "" then s else String.mk (removeFirstAux pat.data s.data)

/-! ### FormatDetector

Source: `formatDetector.ts`.  The two confidence scores accumulate the
double constants 0.4, 0.3 and 0.1; they are modelled as exact
rationals.  This is faithful: the reachable double sums are
`{0, 0.1, 0.3, 0.4, 0.3+0.1, 0.4+0.1, 0.4+0.3, 0.4+0.3+0.1}`, built in
the same order on both sides, any two rationally-different sums differ
by at least 0.1 (far above double rounding error), and the one
rationally-equal cross pair `0.4` vs `0.3+0.1` is also exactly equal in
IEEE doubles (`0.3 + 0.1 == 0.4` holds in JavaScript), so every
comparison `>` in the source has the same outcome over ℚ. -/

inductive TextureFormat where
  | Bedrock
  | LabPBR
  | Unknown
deriving DecidableEq, Repr

inductive ConversionDirection where
  | BedrockToLabPBR
  | LabPBRToBedrock
  | Auto
deriving DecidableEq, Repr

structure DetectionResult where
  format : TextureFormat
  baseTexturePath : Option String
  merTexturePath : Option String
  specularTexturePath : Option String
  normalTexturePath : Option String
  confidence : ℚ
deriving DecidableEq, Repr

namespace FormatDetector

/-- Basename of the input without its extension (source line 46). -/
def texBaseName (p : String) : String := basenameStrip p (extname p)

/-- Suffix stripping of source lines 54–61. -/
def baseNameWithoutSuffix (p : String) : String :=
  let baseName := texBaseName p
  if strEndsWithS baseName "_s" then strDropRight baseName 2
  else if strEndsWithS baseName "_n" then strDropRight baseName 2
  else if strEndsWithS baseName "_mer" then strDropRight baseName 4
  else baseName

/-- Path of the sibling texture `baseNameWithoutSuffix ++ suffix ++ ext`
in the same directory (source lines 64–67). -/
def siblingPath (p suffix : String) : String :=
  pathJoin (dirname p) (baseNameWithoutSuffix p ++ suffix ++ extname p)

def hasBaseTexture (fsExists : String → Bool) (p : String) : Bool :=
  fsExists (siblingPath p "")

def hasSpecularTexture (fsExists : String → Bool) (p : String) : Bool :=
  fsExists (siblingPath p "_s")

def hasNormalTexture (fsExists : String → Bool) (p : String) : Bool :=
  fsExists (siblingPath p "_n")

def hasMERTexture (fsExists : String → Bool) (p : String) : Bool :=
  fsExists (siblingPath p "_mer")

/-- Score accumulation of source lines 74–98: naming contributes 0.4,
sibling presence 0.3, a present base texture 0.1 to both sides.
Returns (labPBRConfidence, bedrockConfidence). -/
def confidenceScores (nameLab nameBed siblingsLab siblingsBed base : Bool) : ℚ × ℚ :=
  ((if nameLab then 0.4 else 0) + (if siblingsLab then 0.3 else 0) +
     (if base then 0.1 else 0),
   (if nameBed then 0.4 else 0) + (if siblingsBed then 0.3 else 0) +
     (if base then 0.1 else 0))

/-- The two accumulated confidence scores for an input path. -/
def detectConfidences (fsExists : String → Bool) (p : String) : ℚ × ℚ :=
  confidenceScores
    (strEndsWithS (texBaseName p) "_s" || strEndsWithS (texBaseName p) "_n")
    (strEndsWithS (texBaseName p) "_mer")
    (hasSpecularTexture fsExists p && hasNormalTexture fsExists p)
    (hasMERTexture fsExists p)
    (hasBaseTexture fsExists p)

/-- Classification branch structure of source lines 100–116. -/
def formatFromConfidences (lab bed : ℚ) : TextureFormat :=
  if lab > bed then TextureFormat.LabPBR
  else if bed > 0 then TextureFormat.Bedrock
  else TextureFormat.Unknown

/-- Source `detectFormat` (lines 38–117): naming and sibling-presence
scores, then the branch on the two scores; only paths of files that
exist are populated, and only those relevant to the chosen format. -/
def detectFormat (fsExists : String → Bool) (p : String) : DetectionResult :=
  let scores := detectConfidences fsExists p
  if scores.1 > scores.2 then
    { format := TextureFormat.LabPBR
      baseTexturePath :=
        if hasBaseTexture fsExists p then some (siblingPath p "") else none
      merTexturePath := none
      specularTexturePath :=
        if hasSpecularTexture fsExists p then some (siblingPath p "_s") else none
      normalTexturePath :=
        if hasNormalTexture fsExists p then some (siblingPath p "_n") else none
      confidence := scores.1 }
  else if scores.2 > 0 then
    { format := TextureFormat.Bedrock
      baseTexturePath :=
        if hasBaseTexture fsExists p then some (siblingPath p "") else none
      merTexturePath :=
        if hasMERTexture fsExists p then some (siblingPath p "_mer") else none
      specularTexturePath := none
      normalTexturePath := none
      confidence := scores.2 }
  else
    { format := TextureFormat.Unknown
      baseTexturePath := none
      merTexturePath := none
      specularTexturePath := none
      normalTexturePath := none
      confidence := 0 }

end FormatDetector

/-! ### NormalMapProcessor

The repository imports `./normalMapProcessor` in
`bidirectionalConverter.ts`, but that file is not under `src/` (only
its callers are), so these operations are modelled from the spec. -/

namespace NormalMapProcessor

/-- Modelled from the spec: `normalMapProcessor.ts` is missing from the
sources.  Spec §4.4: `extractHeightMap(normalTexture)` requires a
4-channel input and copies the alpha plane into a new single-channel
buffer; it fails with `MissingChannel` if the input has no alpha. -/
def extractHeightMap (t : TextureData) : Except String TextureData :=
  if t.channels = 4 then
    Except.ok
      { width := t.width
        height := t.height
        data := (List.range (t.width * t.height)).map
          (fun i => t.data.getD (i * 4 + 3) 0)
        channels := 1 }
  else Except.error "MissingChannel"

/-- Modelled from the spec: `normalMapProcessor.ts` is missing from the
sources.  Spec §4.4: `reconstructNormalMap` applies the §4.3
blue-channel reconstruction per pixel and emits a 3-channel RGB buffer
(R = x, G = y, B = reconstructed). -/
def reconstructNormalMap (t : TextureData) : TextureData :=
  let channels := ChannelExtractor.extractChannels t
  let pixelCount := t.width * t.height
  ChannelExtractor.combineChannels
    { r := channels.r
      g := channels.g
      b := (List.range pixelCount).map (fun i =>
        BidirectionalWorkflowConverter.reconstructNormalMapBlueChannel
          (channels.r.getD i 0) (channels.g.getD i 0))
      a := none
      width := t.width
      height := t.height }

/-- Modelled from the spec: `normalMapProcessor.ts` is missing from the
sources.  Spec §4.4: `aoFactor = 1 − ao/255`; for channels 0–2,
`out = round(in · (1 − aoFactor·0.5))`, alpha passed through.  The
formula equals `round(in·(255 + ao)/510) = (in·(255 + ao) + 255)/510`
in integer division. -/
def bakeAOIntoBaseColor (aoPlane : List Nat) (base : TextureData) : TextureData :=
  { base with
    data := base.data.mapIdx (fun j v =>
      if j % base.channels < 3 then
        (v * (255 + aoPlane.getD (j / base.channels) 0) + 255) / 510
      else v) }

end NormalMapProcessor

/-! ### TextureLoader / TextureWriter naming helpers

Source: `textureLoader.ts` (`findColorTexture`) and `textureWriter.ts`
(`getSpecularTexturePath`).  Image decode/encode themselves are
external collaborators and live in the environment record below. -/

def strToLower (s : String) : String := String.mk (s.data.map Char.toLower)

namespace TextureLoader

/-- Source `findColorTexture`: lowercased basename with `_mer.png` /
`_mer` stripped (first occurrence each, as JS `String.replace` with a
string pattern), then the first of `base.png`, `base_color.png`,
`base_diffuse.png` that exists in the same directory. -/
def findColorTexture (fsExists : String → Bool) (merFilePath : String) :
    Option String :=
  let dir := dirname merFilePath
  let baseName :=
    removeFirst (removeFirst (strToLower (basename merFilePath)) "_mer.png") "_mer"
  let possibleNames :=
    [baseName ++ ".png", baseName ++ "_color.png", baseName ++ "_diffuse.png"]
  possibleNames.findSome? (fun name =>
    let colorPath := pathJoin dir name
    if fsExists colorPath then some colorPath else none)

end TextureLoader

namespace TextureWriter

/-- Source `getSpecularTexturePath`: basename without extension, with
`_mer`, `_diffuse`, `_color` removed (first occurrence each), plus
`_s.png`. -/
def getSpecularTexturePath (sourcePath : String) : String :=
  let dir := dirname sourcePath
  let baseName :=
    removeFirst (removeFirst (removeFirst
      (basenameStrip sourcePath (extname sourcePath)) "_mer") "_diffuse") "_color"
  pathJoin dir (baseName ++ "_s.png")

end TextureWriter

/-! ### Conversion entry points and their error boundary

Source: `pbrConverter.ts` (`convertTexture`) and
`bidirectionalConverter.ts` (`convertAuto`, `convertLabPBRToBedrock`).
Each entry point builds a `ConversionResult`, runs its pipeline inside
`try`, and on any fault appends `Error: <message>` to the accumulated
messages and returns the result normally with `success = false`.  The
pipeline is modelled as an `Except`-valued body whose error carries the
result record as accumulated at the point of the fault, and the
`try/catch` as `runCatch`.  Image decode/encode are the external
collaborators of an explicit environment. -/

structure OutputPaths where
  specular : Option String
  normal : Option String
  mer : Option String
  bedrockNormal : Option String
  heightMap : Option String
  baseColorWithAO : Option String
deriving DecidableEq, Repr

def OutputPaths.empty : OutputPaths := ⟨none, none, none, none, none, none⟩

structure ConversionResult where
  sourcePath : String
  outputPaths : OutputPaths
  success : Bool
  messages : List String
  conversionDirection : Option ConversionDirection
deriving DecidableEq, Repr

def pushMsg (r : ConversionResult) (m : String) : ConversionResult :=
  { r with messages := r.messages ++ [m] }

structure ConversionOptions where
  outputFormat : Option String
  compressionLevel : Option Nat
  conversionDirection : Option ConversionDirection
  bakeAO : Option Bool
  extractHeightMap : Option Bool
deriving DecidableEq, Repr

def noOptions : ConversionOptions := ⟨none, none, none, none, none⟩

/-- External collaborators: filesystem existence, image decode, image
encode (the latter returning the written path or a failure message). -/
structure Env where
  fsExists : String → Bool
  loadTexture : String → Except String TextureData
  saveTexture : TextureData → String → Option String → Option Nat →
    Except String String

/-- The `try/catch` boundary shared by the conversion entry points:
a successful body yields its result; a fault yields the result as
accumulated so far with `Error: <message>` appended. -/
def runCatch (x : Except (ConversionResult × String) ConversionResult) :
    ConversionResult :=
  match x with
  | Except.ok r => r
  | Except.error p => { p.1 with messages := p.1.messages ++ ["Error: " ++ p.2] }

/-- JS `a || b` on an optional string (empty strings are falsy). -/
def jsStringOr (o : Option String) (dflt : String) : String :=
  match o with
  | some s => if s = "" then dflt else s
  | none => dflt

/-- JS truthiness of an optional string. -/
def jsTruthy (o : Option String) : Bool :=
  match o with
  | some s => decide (s ≠ "")
  | none => false

namespace PBRConverter

/-- Result record as initialised at source `pbrConverter.ts` lines
27–32. -/
def convertTextureInit (merTexturePath : String) : ConversionResult :=
  { sourcePath := merTexturePath
    outputPaths := OutputPaths.empty
    success := false
    messages := []
    conversionDirection := none }

/-- Body of the `try` block of `convertTexture` (source lines 34–86).
The error value carries the result as accumulated at the fault. -/
def convertTextureBody (env : Env) (merTexturePath : String)
    (colorTexturePath : Option String) (outputDir : Option String)
    (options : ConversionOptions) (r0 : ConversionResult) :
    Except (ConversionResult × String) ConversionResult :=
  let rest : String → ConversionResult →
      Except (ConversionResult × String) ConversionResult :=
    fun colorPath r =>
      let finalOutputDir :=
        match outputDir with
        | some d => if d = "" then dirname merTexturePath else d
        | none => dirname merTexturePath
      let r := pushMsg r "Loading textures..."
      match env.loadTexture merTexturePath with
      | Except.error e => Except.error (r, e)
      | Except.ok merTextureData =>
      match env.loadTexture colorPath with
      | Except.error e => Except.error (r, e)
      | Except.ok colorTextureData =>
      let r := pushMsg r "Extracting channels..."
      let merChannels := ChannelExtractor.extractMERChannels merTextureData
      let colorChannels := ChannelExtractor.extractChannels colorTextureData
      let r := pushMsg r "Creating specular texture..."
      let specularTexture := createSpecularTexture merChannels colorChannels
        merTextureData.width merTextureData.height
      let specularPath := TextureWriter.getSpecularTexturePath colorPath
      let finalSpecularPath :=
        match outputDir with
        | some d =>
          if d = "" then specularPath
          else pathJoin finalOutputDir (basename specularPath)
        | none => specularPath
      match env.saveTexture specularTexture finalSpecularPath
          options.outputFormat options.compressionLevel with
      | Except.error e => Except.error (r, e)
      | Except.ok _ =>
      let r := { r with outputPaths :=
        { r.outputPaths with specular := some finalSpecularPath } }
      let r := pushMsg r ("Saved specular texture to: " ++ basename finalSpecularPath)
      let r := pushMsg r "Note: Normal map processing not implemented in this version"
      Except.ok { r with success := true }
  match (match colorTexturePath with
         | some c => if c = "" then none else some c
         | none => none) with
  | none =>
    match TextureLoader.findColorTexture env.fsExists merTexturePath with
    | none => Except.error (r0, "Could not find corresponding color texture")
    | some found =>
      rest found (pushMsg r0 ("Found color texture: " ++ basename found))
  | some c => rest c r0

/-- Source `PBRConverter.convertTexture`: the body under the catching
boundary. -/
def convertTexture (env : Env) (merTexturePath : String)
    (colorTexturePath : Option String) (outputDir : Option String)
    (options : ConversionOptions) : ConversionResult :=
  runCatch (convertTextureBody env merTexturePath colorTexturePath outputDir
    options (convertTextureInit merTexturePath))

end PBRConverter

namespace BidirectionalConverter

/-- Result record as initialised at source `bidirectionalConverter.ts`
lines 131–137. -/
def convertLabPBRInit (specularTexturePath : String) : ConversionResult :=
  { sourcePath := specularTexturePath
    outputPaths := OutputPaths.empty
    success := false
    messages := []
    conversionDirection := some ConversionDirection.LabPBRToBedrock }

/-- Heightmap extraction step of `convertLabPBRToBedrock` (source lines
217–233): runs when `extractHeightMap` is not explicitly `false` and
the normal texture has 4 channels. -/
def heightStep (env : Env) (normalTextureData : TextureData)
    (finalOutputDir baseTexturePath ext : String)
    (options : ConversionOptions) (r : ConversionResult) :
    Except (ConversionResult × String) ConversionResult :=
  if options.extractHeightMap ≠ some false ∧ normalTextureData.channels = 4 then
    let r := pushMsg r "Extracting heightmap..."
    match NormalMapProcessor.extractHeightMap normalTextureData with
    | Except.error e => Except.error (r, e)
    | Except.ok heightMap =>
      let heightMapPath := pathJoin finalOutputDir
        (basenameStrip baseTexturePath ext ++ "_heightmap" ++ ext)
      match env.saveTexture heightMap heightMapPath
          options.outputFormat options.compressionLevel with
      | Except.error e => Except.error (r, e)
      | Except.ok _ =>
        Except.ok (pushMsg { r with outputPaths :=
          { r.outputPaths with heightMap := some heightMapPath } }
          ("Saved heightmap to: " ++ basename heightMapPath))
  else Except.ok r

/-- AO baking step of `convertLabPBRToBedrock` (source lines 235–254):
runs when `bakeAO` is explicitly `true`. -/
def bakeStep (env : Env) (normalChannelsB : List Nat)
    (baseTextureData : TextureData)
    (finalOutputDir baseTexturePath ext : String)
    (options : ConversionOptions) (r : ConversionResult) :
    Except (ConversionResult × String) ConversionResult :=
  if options.bakeAO = some true then
    let r := pushMsg r "Baking AO into base color..."
    let baseColorWithAO := NormalMapProcessor.bakeAOIntoBaseColor
      normalChannelsB baseTextureData
    let baseColorPath := pathJoin finalOutputDir
      (basenameStrip baseTexturePath ext ++ "_withAO" ++ ext)
    match env.saveTexture baseColorWithAO baseColorPath
        options.outputFormat options.compressionLevel with
    | Except.error e => Except.error (r, e)
    | Except.ok _ =>
      Except.ok (pushMsg { r with outputPaths :=
        { r.outputPaths with baseColorWithAO := some baseColorPath } }
        ("Saved base color with AO to: " ++ basename baseColorPath))
  else Except.ok r

/-- Body of the `try` block of `convertLabPBRToBedrock` (source lines
139–257). -/
def convertLabPBRToBedrockBody (env : Env)
    (specularTexturePath normalTexturePath baseTexturePath : String)
    (outputDir : Option String) (options : ConversionOptions)
    (r0 : ConversionResult) :
    Except (ConversionResult × String) ConversionResult :=
  let finalOutputDir :=
    match outputDir with
    | some d => if d = "" then dirname specularTexturePath else d
    | none => dirname specularTexturePath
  let r := pushMsg r0 "Loading textures..."
  match env.loadTexture specularTexturePath with
  | Except.error e => Except.error (r, e)
  | Except.ok specularTextureData =>
  match env.loadTexture normalTexturePath with
  | Except.error e => Except.error (r, e)
  | Except.ok normalTextureData =>
  match env.loadTexture baseTexturePath with
  | Except.error e => Except.error (r, e)
  | Except.ok baseTextureData =>
  let r := pushMsg r "Extracting channels..."
  let specularChannels := ChannelExtractor.extractChannels specularTextureData
  let normalChannels := ChannelExtractor.extractChannels normalTextureData
  let _baseChannels := ChannelExtractor.extractChannels baseTextureData
  let r := pushMsg r "Creating MER texture..."
  let hasSubsurface := hasSubsurfaceScan specularChannels
    (specularTextureData.width * specularTextureData.height)
  let fileSuffix := merFileSuffix hasSubsurface
  let merTexture := merOutputTexture specularChannels normalChannels
    specularTextureData.width specularTextureData.height
  let ext := extname baseTexturePath
  let merPath := pathJoin finalOutputDir
    (basenameStrip baseTexturePath ext ++ fileSuffix ++ ext)
  match env.saveTexture merTexture merPath
      options.outputFormat options.compressionLevel with
  | Except.error e => Except.error (r, e)
  | Except.ok _ =>
  let r := { r with outputPaths := { r.outputPaths with mer := some merPath } }
  let r := pushMsg r ("Saved " ++ (if hasSubsurface then "MERS" else "MER") ++
    " texture to: " ++ basename merPath)
  let r := pushMsg r "Creating Bedrock normal map..."
  let bedrockNormalMap := NormalMapProcessor.reconstructNormalMap normalTextureData
  let normalPath := pathJoin finalOutputDir
    (basenameStrip baseTexturePath ext ++ "_normal" ++ ext)
  match env.saveTexture bedrockNormalMap normalPath
      options.outputFormat options.compressionLevel with
  | Except.error e => Except.error (r, e)
  | Except.ok _ =>
  let r := { r with outputPaths :=
    { r.outputPaths with bedrockNormal := some normalPath } }
  let r := pushMsg r ("Saved normal map to: " ++ basename normalPath)
  match heightStep env normalTextureData finalOutputDir baseTexturePath ext
      options r with
  | Except.error p => Except.error p
  | Except.ok r =>
  match bakeStep env normalChannels.b baseTextureData finalOutputDir
      baseTexturePath ext options r with
  | Except.error p => Except.error p
  | Except.ok r => Except.ok { r with success := true }

/-- Source `BidirectionalConverter.convertLabPBRToBedrock`: the body
under the catching boundary. -/
def convertLabPBRToBedrock (env : Env)
    (specularTexturePath normalTexturePath baseTexturePath : String)
    (outputDir : Option String) (options : ConversionOptions) :
    ConversionResult :=
  runCatch (convertLabPBRToBedrockBody env specularTexturePath
    normalTexturePath baseTexturePath outputDir options
    (convertLabPBRInit specularTexturePath))

/-- Direction choice of `convertAuto` (source lines 36–39).  The JS
expression is `options.conversionDirection || (detected ? ... : ...)`;
the enum value `BedrockToLabPBR` is 0 and therefore falsy, so a forced
`BedrockToLabPBR` also falls through to the detection-based choice. -/
def directionOf (options : ConversionOptions) (det : DetectionResult) :
    ConversionDirection :=
  match options.conversionDirection with
  | some ConversionDirection.LabPBRToBedrock => ConversionDirection.LabPBRToBedrock
  | some ConversionDirection.Auto => ConversionDirection.Auto
  | _ =>
    if det.format = TextureFormat.Bedrock then ConversionDirection.BedrockToLabPBR
    else ConversionDirection.LabPBRToBedrock

def formatName : TextureFormat → String
  | TextureFormat.Bedrock => "Bedrock"
  | TextureFormat.LabPBR => "LabPBR"
  | TextureFormat.Unknown => "Unknown"

/-- JS `confidence.toFixed(2)` for the non-negative tenth-valued
confidences produced by the detector (rounding to two decimals). -/
def toFixed2 (q : ℚ) : String :=
  let cents := (⌊q * 100 + 1 / 2⌋).toNat
  let ip := cents / 100
  let fr := cents % 100
  toString ip ++ "." ++ (if fr < 10 then "0" ++ toString fr else toString fr)

def detectionMessage (det : DetectionResult) : String :=
  "Detected format: " ++ formatName det.format ++
    " (confidence: " ++ toFixed2 det.confidence ++ ")"

/-- Result record as initialised at source lines 42–48 (before the
`try` block; the detection itself also runs before it). -/
def convertAutoInit (texturePath : String) (det : DetectionResult)
    (direction : ConversionDirection) : ConversionResult :=
  { sourcePath := texturePath
    outputPaths := OutputPaths.empty
    success := false
    messages := [detectionMessage det]
    conversionDirection := some direction }

/-- Body of the `try` block of `convertAuto` (source lines 50–112). -/
def convertAutoBody (env : Env) (texturePath : String)
    (outputDir : Option String) (options : ConversionOptions)
    (det : DetectionResult) (direction : ConversionDirection)
    (r0 : ConversionResult) :
    Except (ConversionResult × String) ConversionResult :=
  match direction with
  | ConversionDirection.BedrockToLabPBR =>
    let r := pushMsg r0 "Converting from Bedrock to LabPBR format..."
    let merTexturePath := jsStringOr det.merTexturePath texturePath
    if merTexturePath = "" ∨ jsTruthy det.baseTexturePath = false then
      Except.error (r, "Could not find required textures for Bedrock to LabPBR conversion")
    else
      let colorTexturePath := jsStringOr det.baseTexturePath ""
      let conversionResult := PBRConverter.convertTexture env merTexturePath
        (some colorTexturePath) outputDir options
      Except.ok { r with
        success := conversionResult.success
        messages := r.messages ++ conversionResult.messages
        outputPaths := conversionResult.outputPaths }
  | ConversionDirection.LabPBRToBedrock =>
    let r := pushMsg r0 "Converting from LabPBR to Bedrock format..."
    let specularTexturePath := jsStringOr det.specularTexturePath texturePath
    if specularTexturePath = "" ∨ jsTruthy det.normalTexturePath = false ∨
        jsTruthy det.baseTexturePath = false then
      Except.error (r, "Could not find required textures for LabPBR to Bedrock conversion")
    else
      let normalTexturePath := jsStringOr det.normalTexturePath ""
      let baseTexturePath := jsStringOr det.baseTexturePath ""
      let labPBRToBedrock := convertLabPBRToBedrock env specularTexturePath
        normalTexturePath baseTexturePath outputDir options
      Except.ok { r with
        success := labPBRToBedrock.success
        messages := r.messages ++ labPBRToBedrock.messages
        outputPaths := labPBRToBedrock.outputPaths }
  | ConversionDirection.Auto =>
    Except.error (r0, "Could not determine conversion direction")

/-- Source `BidirectionalConverter.convertAuto`: format detection and
direction choice happen before the `try` block; the remainder runs
under the catching boundary. -/
def convertAuto (env : Env) (texturePath : String)
    (outputDir : Option String) (options : ConversionOptions) :
    ConversionResult :=
  let det := FormatDetector.detectFormat env.fsExists texturePath
  let direction := directionOf options det
  runCatch (convertAutoBody env texturePath outputDir options det direction
    (convertAutoInit texturePath det direction))

end BidirectionalConverter

/-! ### Concrete inputs used by the theorems below -/

/-- The 2×2 packed MER input of the end-to-end spec example:
metallic [0,255,0,255], emissive [0,0,128,128], roughness
[0,64,128,255], no alpha plane. -/
def exampleMERChannels : MERChannels :=
  { metallic := [0, 255, 0, 255]
    emissive := [0, 0, 128, 128]
    roughness := [0, 64, 128, 255]
    subsurface := none }

/-- Uniform mid-gray 2×2 colour texture channels. -/
def exampleColorChannels : ChannelData :=
  { r := [128, 128, 128, 128]
    g := [128, 128, 128, 128]
    b := [128, 128, 128, 128]
    a := none
    width := 2
    height := 2 }

/-- Specular texture produced from the example input. -/
def exampleSpecular : TextureData :=
  PBRConverter.createSpecularTexture exampleMERChannels exampleColorChannels 2 2

/-- A 2×2 LabPBR specular input with no subsurface (blue plane all 0)
and smoothness plane [0,0,0,100]. -/
def noSubsurfaceSpec : ChannelData :=
  { r := [0, 0, 0, 100]
    g := [0, 0, 0, 0]
    b := [0, 0, 0, 0]
    a := none
    width := 2
    height := 2 }

/-- A 2×2 all-zero normal-texture channel set. -/
def zeroNormalChannels : ChannelData :=
  { r := [0, 0, 0, 0]
    g := [0, 0, 0, 0]
    b := [0, 0, 0, 0]
    a := none
    width := 2
    height := 2 }

/-- Filesystem where only `/a/foo.png` exists. -/
def onlyBaseFs : String → Bool := fun s => s == "/a/foo.png"

/-- Environment in which every collaborator call fails. -/
def envFail : Env :=
  { fsExists := fun _ => false
    loadTexture := fun _ => Except.error "decode failure"
    saveTexture := fun _ _ _ _ => Except.error "encode failure" }

/-- Options forcing the `Auto` conversion direction. -/
def optsAuto : ConversionOptions :=
  { outputFormat := none
    compressionLevel := none
    conversionDirection := some ConversionDirection.Auto
    bakeAO := none
    extractHeightMap := none }

end PBRConv

namespace PBRConv

/-! ### Helper lemmas about interleaved pixel buffers

`combineChannels` flattens one fixed-size block per pixel; these lemmas
give its length, its bytes, and the round trip with per-index reads. -/

theorem getD_map_range {f : Nat → Nat} {n i : Nat} (h : i < n) (d : Nat) :
    ((List.range n).map f).getD i d = f i := by
  rw [List.getD_eq_getElem?_getD, List.getElem?_map, List.getElem?_range h]
  rfl

theorem length_flatMap_blocks (c : Nat) (f : Nat → List Nat)
    (hf : ∀ i, (f i).length = c) :
    ∀ n, ((List.range n).flatMap f).length = n * c := by
  intro n
  induction n with
  | zero => simp
  | succ n ih =>
    rw [List.range_succ, List.flatMap_append, List.length_append, ih]
    simp [hf]
    ring

theorem getD_flatMap_blocks (c : Nat) (f : Nat → List Nat)
    (hf : ∀ i, (f i).length = c) :
    ∀ n i k, i < n → k < c →
      ((List.range n).flatMap f).getD (i * c + k) 0 = (f i).getD k 0 := by
  intro n
  induction n with
  | zero => intro i k hi _; omega
  | succ n ih =>
    intro i k hi hk
    rw [List.range_succ, List.flatMap_append]
    rcases Nat.lt_or_ge i n with hlt | hge
    · have hidx : i * c + k < ((List.range n).flatMap f).length := by
        rw [length_flatMap_blocks c f hf n]
        calc i * c + k < i * c + c := by omega
          _ = (i + 1) * c := by ring
          _ ≤ n * c := Nat.mul_le_mul_right c hlt
      rw [List.getD_append _ _ _ _ hidx]
      exact ih i k hlt hk
    · have hin : i = n := by omega
      subst hin
      have hlen : ((List.range i).flatMap f).length = i * c :=
        length_flatMap_blocks c f hf i
      rw [List.getD_append_right _ _ _ _ (by omega), hlen]
      have : i * c + k - i * c = k := by omega
      rw [this]
      simp

theorem map_range_getD_drop :
    ∀ (c : Nat) (L : List Nat) (s : Nat), L.length = s + c →
      (List.range c).map (fun k => L.getD (s + k) 0) = L.drop s := by
  intro c
  induction c with
  | zero =>
    intro L s hL
    rw [List.range_zero, List.map_nil]
    exact (List.drop_eq_nil_of_le (by omega)).symm
  | succ c ih =>
    intro L s hL
    have hs : s < L.length := by omega
    rw [List.range_succ_eq_map, List.map_cons, List.map_map]
    have h1 : ((fun k => L.getD (s + k) 0) ∘ Nat.succ) =
        fun k => L.getD (s + 1 + k) 0 := by
      funext k
      simp only [Function.comp_apply]
      congr 1
      omega
    rw [h1, ih L (s + 1) (by omega)]
    have h2 : L.getD (s + 0) 0 = L.getD s 0 := by rw [Nat.add_zero]
    rw [h2, List.drop_eq_getElem_cons hs]
    congr 1
    rw [List.getD_eq_getElem?_getD, List.getElem?_eq_getElem hs]
    rfl

theorem flatMap_blocks_recompose :
    ∀ (n : Nat) (c : Nat) (L : List Nat), L.length = n * c →
      (List.range n).flatMap
        (fun i => (List.range c).map (fun k => L.getD (i * c + k) 0)) = L := by
  intro n
  induction n with
  | zero =>
    intro c L hL
    rw [List.range_zero, List.flatMap_nil]
    symm
    exact List.eq_nil_of_length_eq_zero (by omega)
  | succ n ih =>
    intro c L hL
    rw [List.range_succ, List.flatMap_append]
    have hle : n * c ≤ L.length := by
      rw [hL]
      exact Nat.mul_le_mul_right c (Nat.le_succ n)
    have htake : (L.take (n * c)).length = n * c := by
      rw [List.length_take]
      exact Nat.min_eq_left hle
    have hcongr : (List.range n).flatMap
        (fun i => (List.range c).map (fun k => L.getD (i * c + k) 0)) =
        (List.range n).flatMap
        (fun i => (List.range c).map (fun k => (L.take (n * c)).getD (i * c + k) 0)) := by
      apply List.flatMap_congr
      intro i hi
      have hi' : i < n := List.mem_range.mp hi
      apply List.map_congr_left
      intro k hk
      have hk' : k < c := List.mem_range.mp hk
      have hidx : i * c + k < n * c := by
        calc i * c + k < i * c + c := by omega
          _ = (i + 1) * c := by ring
          _ ≤ n * c := Nat.mul_le_mul_right c hi'
      rw [List.getD_eq_getElem?_getD, List.getD_eq_getElem?_getD,
        List.getElem?_take, if_pos hidx]
    rw [hcongr, ih c (L.take (n * c)) htake]
    have hdrop : (List.range c).map (fun k => L.getD (n * c + k) 0) =
        L.drop (n * c) := by
      apply map_range_getD_drop
      have : (n + 1) * c = n * c + c := by ring
      omega
    rw [List.flatMap_singleton, hdrop, List.take_append_drop]

/-! ### Claim theorems -/

/-- C1 (counterexample): converting the 2×2 packed example does not
produce the red (smoothness) channel `[255, 63, 193, 0]` asserted by
the claim: `roughnessToSmoothness` maps the roughness plane
`[0, 64, 128, 255]` to `[255, 127, 74, 0]`. -/
theorem c1_red_channel_counterexample :
    (ChannelExtractor.extractChannels exampleSpecular).r ≠ [255, 63, 193, 0] := by
  decide

/-- C1 (amended): for the 2×2 packed input with roughness plane
`[0, 64, 128, 255]` and emissive plane `[0, 0, 128, 128]` (metallic
`[0, 255, 0, 255]`, no alpha, uniform mid-gray colour), the packed →
LabPBR conversion produces a specular texture whose red (smoothness)
channel equals `[255, 127, 74, 0]`, each entry computed by
`roughnessToSmoothness`, and whose alpha (emission) channel equals
`[0, 0, 128, 128]`, each entry computed by `convertEmissive`. -/
theorem c1_end_to_end_channels :
    (ChannelExtractor.extractChannels exampleSpecular).r = [255, 127, 74, 0] ∧
    (ChannelExtractor.extractChannels exampleSpecular).r =
      [WorkflowConverter.roughnessToSmoothness 0,
       WorkflowConverter.roughnessToSmoothness 64,
       WorkflowConverter.roughnessToSmoothness 128,
       WorkflowConverter.roughnessToSmoothness 255] ∧
    (ChannelExtractor.extractChannels exampleSpecular).a = some [0, 0, 128, 128] ∧
    (ChannelExtractor.extractChannels exampleSpecular).a =
      some [WorkflowConverter.convertEmissive 0,
            WorkflowConverter.convertEmissive 0,
            WorkflowConverter.convertEmissive 128,
            WorkflowConverter.convertEmissive 128] := by
  refine ⟨by decide, by decide, by decide, by decide⟩

/-- C5: for every byte `m`, `metallicToF0 m` lies in [230, 255] when
`m > 200` and in [4, 229] when `m ≤ 200`: the threshold 200 separates
the predefined-metal range from the dielectric range. -/
theorem c5_metallicToF0_ranges :
    ∀ m, m < 256 →
      (200 < m → 230 ≤ WorkflowConverter.metallicToF0 m ∧
        WorkflowConverter.metallicToF0 m ≤ 255) ∧
      (m ≤ 200 → 4 ≤ WorkflowConverter.metallicToF0 m ∧
        WorkflowConverter.metallicToF0 m ≤ 229) := by
  decide

/-- Witness for C5 at the concrete bytes 255 and 100. -/
theorem c5_metallicToF0_ranges_witness :
    (230 ≤ WorkflowConverter.metallicToF0 255 ∧
      WorkflowConverter.metallicToF0 255 ≤ 255) ∧
    (4 ≤ WorkflowConverter.metallicToF0 100 ∧
      WorkflowConverter.metallicToF0 100 ≤ 229) :=
  ⟨(c5_metallicToF0_ranges 255 (by decide)).1 (by decide),
   (c5_metallicToF0_ranges 100 (by decide)).2 (by decide)⟩

/-- C6: `convertSubsurface 0 = 0`; for `s` in [1,255],
`convertSubsurface s` lies in [65,255]; for a porosity fraction `p` in
[0,1], `convertPorosity p` lies in [0,64]; hence on nonzero subsurface
input the two packers' outputs are never equal. -/
theorem c6_subsurface_porosity_ranges :
    WorkflowConverter.convertSubsurface 0 = 0 ∧
    (∀ s, s < 256 → 1 ≤ s →
      65 ≤ WorkflowConverter.convertSubsurface s ∧
      WorkflowConverter.convertSubsurface s ≤ 255) ∧
    (∀ p : ℚ, 0 ≤ p → p ≤ 1 →
      0 ≤ WorkflowConverter.convertPorosity p ∧
      WorkflowConverter.convertPorosity p ≤ 64) ∧
    (∀ s, s < 256 → 1 ≤ s → ∀ p : ℚ, 0 ≤ p → p ≤ 1 →
      WorkflowConverter.convertPorosity p ≠
        (WorkflowConverter.convertSubsurface s : ℤ)) := by
  have hpor : ∀ p : ℚ, 0 ≤ p → p ≤ 1 →
      0 ≤ WorkflowConverter.convertPorosity p ∧
      WorkflowConverter.convertPorosity p ≤ 64 := by
    intro p h0 h1
    unfold WorkflowConverter.convertPorosity
    constructor
    · apply Int.le_floor.mpr
      push_cast
      nlinarith
    · have hle : p * 64 + 1 / 2 ≤ 129 / 2 := by nlinarith
      calc ⌊p * 64 + 1 / 2⌋ ≤ ⌊(129 / 2 : ℚ)⌋ := Int.floor_le_floor hle
        _ = 64 := by norm_num
  have hsub : ∀ s, s < 256 → 1 ≤ s →
      65 ≤ WorkflowConverter.convertSubsurface s ∧
      WorkflowConverter.convertSubsurface s ≤ 255 := by decide
  refine ⟨by decide, hsub, hpor, ?_⟩
  intro s hs hs1 p hp0 hp1
  have h1 := hsub s hs hs1
  have h2 := hpor p hp0 hp1
  intro hcontra
  rw [hcontra] at h2
  have : (65 : ℤ) ≤ (WorkflowConverter.convertSubsurface s : ℤ) := by
    exact_mod_cast h1.1
  omega

/-- Witness for C6 at the concrete subsurface byte 100 and porosity
fraction 1/2. -/
theorem c6_subsurface_porosity_ranges_witness :
    (65 ≤ WorkflowConverter.convertSubsurface 100 ∧
      WorkflowConverter.convertSubsurface 100 ≤ 255) ∧
    (0 ≤ WorkflowConverter.convertPorosity (1 / 2) ∧
      WorkflowConverter.convertPorosity (1 / 2) ≤ 64) ∧
    WorkflowConverter.convertPorosity (1 / 2) ≠
      (WorkflowConverter.convertSubsurface 100 : ℤ) :=
  ⟨c6_subsurface_porosity_ranges.2.1 100 (by decide) (by decide),
   c6_subsurface_porosity_ranges.2.2.1 (1 / 2) (by norm_num) (by norm_num),
   c6_subsurface_porosity_ranges.2.2.2 100 (by decide) (by decide)
     (1 / 2) (by norm_num) (by norm_num)⟩

/-- C7: the composition `smoothnessToRoughness ∘ roughnessToSmoothness`
is not the identity on bytes: at roughness 254 the round trip returns
253. -/
theorem c7_roundtrip_not_identity :
    ∃ r, r ≤ 255 ∧
      WorkflowConverter.smoothnessToRoughness
        (WorkflowConverter.roughnessToSmoothness r) ≠ r :=
  ⟨254, by decide, by decide⟩

/-- Every branch of the colour-bucket heuristic returns a code in the
predefined-metal range, with no bound on the inputs. -/
theorem getPredefinedMetal_bounds (r g b : Nat) :
    230 ≤ WorkflowConverter.getPredefinedMetal r g b ∧
    WorkflowConverter.getPredefinedMetal r g b ≤ 237 := by
  unfold WorkflowConverter.getPredefinedMetal
  split_ifs <;> decide

/-- The green (reflectance) byte of pixel `i` of the specular output is
the `f0Plane` entry. -/
theorem specular_green_byte (mer : MERChannels) (color : ChannelData)
    (width height i : Nat) (hi : i < width * height) :
    (ChannelExtractor.extractChannels
      (PBRConverter.createSpecularTexture mer color width height)).g.getD i 0 =
    (PBRConverter.f0Plane mer color (width * height)).getD i 0 := by
  have h1 : (ChannelExtractor.extractChannels
      (PBRConverter.createSpecularTexture mer color width height)).g =
      (List.range (width * height)).map (fun j =>
        (PBRConverter.createSpecularTexture mer color width height).data.getD
          (j * 4 + 1) 0) := rfl
  have h2 : (PBRConverter.createSpecularTexture mer color width height).data =
      (List.range (width * height)).flatMap (fun j =>
        [(PBRConverter.smoothnessPlane mer (width * height)).getD j 0,
         (PBRConverter.f0Plane mer color (width * height)).getD j 0,
         (PBRConverter.porosityPlane mer (width * height)).getD j 0,
         (PBRConverter.emissionPlane mer (width * height)).getD j 0]) := rfl
  rw [h1, getD_map_range hi, h2,
    getD_flatMap_blocks 4 _ (fun _ => by rfl) (width * height) i 1 hi
      (by norm_num)]
  rfl

/-- C10: `getPredefinedMetal` is total with values among
Gold = 231, Copper = 234, Silver = 237, Iron = 230 (always within
[230, 237]), and in the packed → LabPBR conversion every pixel taking
the metallic branch receives a green (reflectance) byte in the
reserved predefined-metal range [230, 237]. -/
theorem c10_predefined_metal_invariant :
    (∀ r g b, r ≤ 255 → g ≤ 255 → b ≤ 255 →
      (WorkflowConverter.getPredefinedMetal r g b =
          WorkflowConverter.PredefinedMetal.Gold ∨
        WorkflowConverter.getPredefinedMetal r g b =
          WorkflowConverter.PredefinedMetal.Copper ∨
        WorkflowConverter.getPredefinedMetal r g b =
          WorkflowConverter.PredefinedMetal.Silver ∨
        WorkflowConverter.getPredefinedMetal r g b =
          WorkflowConverter.PredefinedMetal.Iron) ∧
      230 ≤ WorkflowConverter.getPredefinedMetal r g b ∧
      WorkflowConverter.getPredefinedMetal r g b ≤ 237) ∧
    (∀ mer color width height i, i < width * height →
      WorkflowConverter.isMetallic (mer.metallic.getD i 0) = true →
      230 ≤ (ChannelExtractor.extractChannels
        (PBRConverter.createSpecularTexture mer color width height)).g.getD i 0 ∧
      (ChannelExtractor.extractChannels
        (PBRConverter.createSpecularTexture mer color width height)).g.getD i 0
        ≤ 237) := by
  constructor
  · intro r g b _ _ _
    refine ⟨?_, getPredefinedMetal_bounds r g b⟩
    unfold WorkflowConverter.getPredefinedMetal
    split_ifs <;> simp
  · intro mer color width height i hi hmet
    rw [specular_green_byte mer color width height i hi]
    unfold PBRConverter.f0Plane
    rw [getD_map_range hi, if_pos hmet]
    exact getPredefinedMetal_bounds _ _ _

/-- Witness for C10: a yellowish colour and a 1×1 metallic pixel. -/
theorem c10_predefined_metal_invariant_witness :
    230 ≤ WorkflowConverter.getPredefinedMetal 250 160 50 ∧
    WorkflowConverter.getPredefinedMetal 250 160 50 ≤ 237 ∧
    230 ≤ (ChannelExtractor.extractChannels
      (PBRConverter.createSpecularTexture
        ⟨[255], [0], [0], none⟩ ⟨[128], [128], [128], none, 1, 1⟩ 1 1)).g.getD 0 0 ∧
    (ChannelExtractor.extractChannels
      (PBRConverter.createSpecularTexture
        ⟨[255], [0], [0], none⟩ ⟨[128], [128], [128], none, 1, 1⟩ 1 1)).g.getD 0 0
      ≤ 237 :=
  ⟨((c10_predefined_metal_invariant.1 250 160 50 (by decide) (by decide)
      (by decide)).2).1,
   ((c10_predefined_metal_invariant.1 250 160 50 (by decide) (by decide)
      (by decide)).2).2,
   (c10_predefined_metal_invariant.2 ⟨[255], [0], [0], none⟩
      ⟨[128], [128], [128], none, 1, 1⟩ 1 1 0 (by decide) (by decide)).1,
   (c10_predefined_metal_invariant.2 ⟨[255], [0], [0], none⟩
      ⟨[128], [128], [128], none, 1, 1⟩ 1 1 0 (by decide) (by decide)).2⟩

/-- Data of the combined MER texture as one 4-byte block per pixel. -/
theorem merTexture_data (sc nc : ChannelData) (w h : Nat) :
    (BidirectionalConverter.createMERTexture sc nc w h).data =
      (List.range (w * h)).flatMap (fun j =>
        [(BidirectionalConverter.merMetallicPlane sc (w * h)).getD j 0,
         (BidirectionalConverter.merEmissivePlane (w * h)).getD j 0,
         (BidirectionalConverter.merRoughnessPlane sc (w * h)).getD j 0,
         (BidirectionalConverter.merSubsurfacePlane sc (w * h)).getD j 0]) := rfl

theorem merTexture_length (sc nc : ChannelData) (w h : Nat) :
    (BidirectionalConverter.createMERTexture sc nc w h).data.length = w * h * 4 := by
  rw [merTexture_data]
  exact length_flatMap_blocks 4 _ (fun _ => by rfl) (w * h)

/-- Alpha byte of pixel `i` of the combined MER texture. -/
theorem merTexture_alpha_byte (sc nc : ChannelData) (w h i : Nat)
    (hi : i < w * h) :
    (BidirectionalConverter.createMERTexture sc nc w h).data.getD (i * 4 + 3) 0 =
      (BidirectionalConverter.merSubsurfacePlane sc (w * h)).getD i 0 := by
  rw [merTexture_data,
    getD_flatMap_blocks 4 _ (fun _ => by rfl) (w * h) i 3 hi (by norm_num)]
  rfl

/-- Byte `j` of the alpha-forcing step: positions in
`[pixelCount·3, pixelCount·4)` become 255, the rest are unchanged. -/
theorem forceAlphaOpaque_getD (t : TextureData) (j : Nat)
    (hj : j < t.data.length) :
    (BidirectionalConverter.forceAlphaOpaque t).data.getD j 0 =
      if t.width * t.height * 3 ≤ j ∧
          j < t.width * t.height * 3 + t.width * t.height then 255
      else t.data.getD j 0 := by
  unfold BidirectionalConverter.forceAlphaOpaque
  dsimp only
  rw [List.getD_eq_getElem?_getD,
    List.getElem?_eq_getElem (by rw [List.length_mapIdx]; exact hj),
    List.getElem_mapIdx]
  split_ifs with hc
  · rfl
  · rw [List.getD_eq_getElem?_getD, List.getElem?_eq_getElem hj]

/-- C4: the LabPBR → packed conversion makes one document-level
decision: the filename suffix is `_mers` exactly when some specular
blue byte is ≥ 65; and when none is, every alpha byte of the output
MER texture equals 255. -/
theorem c4_document_decision (specularChannels normalChannels : ChannelData)
    (width height : Nat) :
    (BidirectionalConverter.merFileSuffix
        (BidirectionalConverter.hasSubsurfaceScan specularChannels
          (width * height)) = "_mers" ↔
      ∃ i < width * height, 65 ≤ specularChannels.b.getD i 0) ∧
    ((¬ ∃ i < width * height, 65 ≤ specularChannels.b.getD i 0) →
      ∀ i < width * height,
        (BidirectionalConverter.merOutputTexture specularChannels
          normalChannels width height).data.getD (i * 4 + 3) 0 = 255) := by
  constructor
  · unfold BidirectionalConverter.merFileSuffix
      BidirectionalConverter.hasSubsurfaceScan
    split_ifs with hsc
    · constructor
      · intro _
        rcases List.any_eq_true.mp hsc with ⟨x, hx, hfx⟩
        exact ⟨x, List.mem_range.mp hx, by simpa using hfx⟩
      · intro _
        rfl
    · constructor
      · intro habs
        exact absurd habs (by decide)
      · rintro ⟨i, hi, h65⟩
        exact absurd
          (List.any_eq_true.mpr ⟨i, List.mem_range.mpr hi, by simpa using h65⟩)
          hsc
  · intro hno i hi
    have hscan : BidirectionalConverter.hasSubsurfaceScan specularChannels
        (width * height) = false := by
      cases hcase : BidirectionalConverter.hasSubsurfaceScan specularChannels
          (width * height) with
      | false => rfl
      | true =>
        exfalso
        rcases List.any_eq_true.mp hcase with ⟨x, hx, hfx⟩
        exact hno ⟨x, List.mem_range.mp hx, by simpa using hfx⟩
    unfold BidirectionalConverter.merOutputTexture
    rw [if_neg (by rw [hscan]; exact Bool.false_ne_true)]
    have hw : (BidirectionalConverter.createMERTexture specularChannels
        normalChannels width height).width = width := rfl
    have hh : (BidirectionalConverter.createMERTexture specularChannels
        normalChannels width height).height = height := rfl
    rw [forceAlphaOpaque_getD _ _
      (by rw [merTexture_length]; omega), hw, hh]
    split_ifs with hc
    · rfl
    · rw [merTexture_alpha_byte specularChannels normalChannels width height i hi]
      unfold BidirectionalConverter.merSubsurfacePlane
      rw [getD_map_range hi]
      rw [if_neg]
      push_neg at hno
      exact not_le.mpr (hno i hi)

/-- Witness for C4: a 1×1 specular input with blue byte 30 gets the
`_mer` suffix and a fully opaque alpha byte. -/
theorem c4_document_decision_witness :
    (BidirectionalConverter.merFileSuffix
      (BidirectionalConverter.hasSubsurfaceScan
        ⟨[10], [20], [30], none, 1, 1⟩ 1) ≠ "_mers") ∧
    (BidirectionalConverter.merOutputTexture ⟨[10], [20], [30], none, 1, 1⟩
      ⟨[0], [0], [0], none, 1, 1⟩ 1 1).data.getD 3 0 = 255 := by
  constructor
  · intro hmers
    exact absurd ((c4_document_decision ⟨[10], [20], [30], none, 1, 1⟩
      ⟨[0], [0], [0], none, 1, 1⟩ 1 1).1.mp hmers) (by decide)
  · exact (c4_document_decision ⟨[10], [20], [30], none, 1, 1⟩
      ⟨[0], [0], [0], none, 1, 1⟩ 1 1).2 (by decide) 0 (by decide)

/-- C3 (code bug): with a 2×2 specular input whose blue plane is all 0
(no subsurface anywhere) and smoothness plane `[0, 0, 0, 100]`, the
alpha-forcing loop — intended, per its own comments, to set only the
alpha plane to fully opaque — changes the roughness byte of pixel 3
(interleaved offset 14) from 155 to 255 and the emissive byte of pixel
3 (offset 13) from 0 to 255, because it indexes the interleaved RGBA
buffer as if it were planar. -/
theorem c3_force_alpha_clobbers_rgb :
    BidirectionalConverter.hasSubsurfaceScan noSubsurfaceSpec 4 = false ∧
    (BidirectionalConverter.createMERTexture noSubsurfaceSpec zeroNormalChannels
      2 2).data.getD 14 0 = 155 ∧
    (BidirectionalConverter.forceAlphaOpaque
      (BidirectionalConverter.createMERTexture noSubsurfaceSpec
        zeroNormalChannels 2 2)).data.getD 14 0 = 255 ∧
    (BidirectionalConverter.createMERTexture noSubsurfaceSpec zeroNormalChannels
      2 2).data.getD 13 0 = 0 ∧
    (BidirectionalConverter.forceAlphaOpaque
      (BidirectionalConverter.createMERTexture noSubsurfaceSpec
        zeroNormalChannels 2 2)).data.getD 13 0 = 255 := by
  refine ⟨by decide, by decide, by decide, by decide, by decide⟩

/-- C8: combining the channels extracted from a texture buffer that
satisfies the pixel-buffer invariant reproduces the buffer exactly. -/
theorem c8_combine_extract_roundtrip (t : TextureData)
    (hch : t.channels = 3 ∨ t.channels = 4)
    (hlen : t.data.length = t.width * t.height * t.channels) :
    ChannelExtractor.combineChannels (ChannelExtractor.extractChannels t) = t := by
  obtain ⟨w, h, data, ch⟩ := t
  dsimp only at hlen
  rcases hch with hch | hch <;> subst hch
  · have hx : ChannelExtractor.extractChannels ⟨w, h, data, 3⟩ =
        { r := (List.range (w * h)).map (fun i => data.getD (i * 3) 0)
          g := (List.range (w * h)).map (fun i => data.getD (i * 3 + 1) 0)
          b := (List.range (w * h)).map (fun i => data.getD (i * 3 + 2) 0)
          a := none
          width := w
          height := h } := by
      unfold ChannelExtractor.extractChannels
      norm_num
    rw [hx]
    unfold ChannelExtractor.combineChannels
    dsimp only
    simp only [TextureData.mk.injEq, eq_self_iff_true, true_and, and_true]
    have hblocks : ∀ i ∈ List.range (w * h),
        [((List.range (w * h)).map (fun i => data.getD (i * 3) 0)).getD i 0,
         ((List.range (w * h)).map (fun i => data.getD (i * 3 + 1) 0)).getD i 0,
         ((List.range (w * h)).map (fun i => data.getD (i * 3 + 2) 0)).getD i 0] =
        (List.range 3).map (fun k => data.getD (i * 3 + k) 0) := by
      intro i hi
      have hi' := List.mem_range.mp hi
      have h3 : (List.range 3).map (fun k => data.getD (i * 3 + k) 0) =
          [data.getD (i * 3 + 0) 0, data.getD (i * 3 + 1) 0,
           data.getD (i * 3 + 2) 0] := by
        simp [List.range_succ]
      rw [h3, getD_map_range hi', getD_map_range hi', getD_map_range hi']
      norm_num
    rw [List.flatMap_congr hblocks,
      flatMap_blocks_recompose (w * h) 3 data hlen]
  · have hx : ChannelExtractor.extractChannels ⟨w, h, data, 4⟩ =
        { r := (List.range (w * h)).map (fun i => data.getD (i * 4) 0)
          g := (List.range (w * h)).map (fun i => data.getD (i * 4 + 1) 0)
          b := (List.range (w * h)).map (fun i => data.getD (i * 4 + 2) 0)
          a := some ((List.range (w * h)).map (fun i => data.getD (i * 4 + 3) 0))
          width := w
          height := h } := by
      unfold ChannelExtractor.extractChannels
      norm_num
    rw [hx]
    unfold ChannelExtractor.combineChannels
    dsimp only
    simp only [TextureData.mk.injEq, eq_self_iff_true, true_and, and_true]
    have hblocks : ∀ i ∈ List.range (w * h),
        [((List.range (w * h)).map (fun i => data.getD (i * 4) 0)).getD i 0,
         ((List.range (w * h)).map (fun i => data.getD (i * 4 + 1) 0)).getD i 0,
         ((List.range (w * h)).map (fun i => data.getD (i * 4 + 2) 0)).getD i 0,
         ((List.range (w * h)).map (fun i => data.getD (i * 4 + 3) 0)).getD i 0] =
        (List.range 4).map (fun k => data.getD (i * 4 + k) 0) := by
      intro i hi
      have hi' := List.mem_range.mp hi
      have h4 : (List.range 4).map (fun k => data.getD (i * 4 + k) 0) =
          [data.getD (i * 4 + 0) 0, data.getD (i * 4 + 1) 0,
           data.getD (i * 4 + 2) 0, data.getD (i * 4 + 3) 0] := by
        simp [List.range_succ]
      rw [h4, getD_map_range hi', getD_map_range hi', getD_map_range hi',
        getD_map_range hi']
      norm_num
    rw [List.flatMap_congr hblocks,
      flatMap_blocks_recompose (w * h) 4 data hlen]

/-- Witness for C8 at a concrete 1×2 three-channel buffer. -/
theorem c8_combine_extract_roundtrip_witness :
    ChannelExtractor.combineChannels
      (ChannelExtractor.extractChannels ⟨1, 2, [1, 2, 3, 4, 5, 6], 3⟩) =
      ⟨1, 2, [1, 2, 3, 4, 5, 6], 3⟩ :=
  c8_combine_extract_roundtrip ⟨1, 2, [1, 2, 3, 4, 5, 6], 3⟩
    (Or.inl rfl) (by decide)

/-- The format chosen by `detectFormat` is determined by the two
confidence scores through the source's branch structure. -/
theorem detectFormat_format_eq (fs : String → Bool) (p : String) :
    (FormatDetector.detectFormat fs p).format =
      FormatDetector.formatFromConfidences
        (FormatDetector.detectConfidences fs p).1
        (FormatDetector.detectConfidences fs p).2 := by
  unfold FormatDetector.detectFormat FormatDetector.formatFromConfidences
  dsimp only
  split_ifs <;> rfl

/-- A confidence sum of the detector is non-negative. -/
theorem score_nonneg (b1 b2 b3 : Bool) :
    0 ≤ (if b1 then (0.4 : ℚ) else 0) + (if b2 then (0.3 : ℚ) else 0) +
      (if b3 then (0.1 : ℚ) else 0) := by
  have h1 : (0 : ℚ) ≤ if b1 then (0.4 : ℚ) else 0 := by split_ifs <;> norm_num
  have h2 : (0 : ℚ) ≤ if b2 then (0.3 : ℚ) else 0 := by split_ifs <;> norm_num
  have h3 : (0 : ℚ) ≤ if b3 then (0.1 : ℚ) else 0 := by split_ifs <;> norm_num
  linarith

theorem detectConfidences_nonneg (fs : String → Bool) (p : String) :
    0 ≤ (FormatDetector.detectConfidences fs p).1 ∧
    0 ≤ (FormatDetector.detectConfidences fs p).2 := by
  unfold FormatDetector.detectConfidences FormatDetector.confidenceScores
  dsimp only
  exact ⟨score_nonneg _ _ _, score_nonneg _ _ _⟩

/-- C2 (amended): `detectFormat` returns LabPBR exactly when the LabPBR
score is strictly higher; it returns Bedrock when the Bedrock score is
at least the LabPBR score and positive — including ties with positive
scores; Unknown occurs exactly when both scores are zero. -/
theorem c2_detectFormat_classification (fs : String → Bool) (p : String) :
    ((FormatDetector.detectFormat fs p).format = TextureFormat.LabPBR ↔
      (FormatDetector.detectConfidences fs p).2 <
        (FormatDetector.detectConfidences fs p).1) ∧
    ((FormatDetector.detectFormat fs p).format = TextureFormat.Bedrock ↔
      (FormatDetector.detectConfidences fs p).1 ≤
        (FormatDetector.detectConfidences fs p).2 ∧
      0 < (FormatDetector.detectConfidences fs p).2) ∧
    ((FormatDetector.detectFormat fs p).format = TextureFormat.Unknown ↔
      (FormatDetector.detectConfidences fs p).1 = 0 ∧
        (FormatDetector.detectConfidences fs p).2 = 0) := by
  obtain ⟨hl, hb⟩ := detectConfidences_nonneg fs p
  rw [detectFormat_format_eq fs p]
  set lab := (FormatDetector.detectConfidences fs p).1 with hlab
  set bed := (FormatDetector.detectConfidences fs p).2 with hbed
  unfold FormatDetector.formatFromConfidences
  split_ifs with h1 h2
  · refine ⟨⟨fun _ => h1, fun _ => rfl⟩,
      ⟨(fun hcon => absurd hcon (by decide)),
       fun hcon => absurd h1 (not_lt.mpr hcon.1)⟩,
      ⟨(fun hcon => absurd hcon (by decide)), fun hcon => ?_⟩⟩
    rw [hcon.1, hcon.2] at h1
    exact absurd h1 (lt_irrefl 0)
  · refine ⟨⟨(fun hcon => absurd hcon (by decide)), fun hcon => absurd hcon h1⟩,
      ⟨fun _ => ⟨not_lt.mp h1, h2⟩, fun _ => rfl⟩,
      ⟨(fun hcon => absurd hcon (by decide)),
       fun hcon => absurd h2 (by rw [hcon.2]; exact lt_irrefl 0)⟩⟩
  · have hbed0 : bed = 0 := le_antisymm (not_lt.mp h2) hb
    have hlab0 : lab = 0 := le_antisymm (hbed0 ▸ not_lt.mp h1) hl
    refine ⟨⟨(fun hcon => absurd hcon (by decide)), fun hcon => ?_⟩,
      ⟨(fun hcon => absurd hcon (by decide)),
       fun hcon => absurd hcon.2 (by rw [hbed0]; exact lt_irrefl 0)⟩,
      ⟨fun _ => ⟨hlab0, hbed0⟩, fun _ => rfl⟩⟩
    rw [hlab0, hbed0] at hcon
    exact absurd hcon (lt_irrefl 0)

/-- C2 (counterexample): for input `/a/foo.png` when only the base
texture `/a/foo.png` exists, the two confidence scores are equal and
positive (both 0.1), and `detectFormat` returns Bedrock — not Unknown
as the claim asserts for ties. -/
theorem c2_tie_yields_bedrock_counterexample :
    (FormatDetector.detectConfidences onlyBaseFs "/a/foo.png").1 =
      (FormatDetector.detectConfidences onlyBaseFs "/a/foo.png").2 ∧
    0 < (FormatDetector.detectConfidences onlyBaseFs "/a/foo.png").2 ∧
    (FormatDetector.detectFormat onlyBaseFs "/a/foo.png").format =
      TextureFormat.Bedrock := by
  have h1 : strEndsWithS (FormatDetector.texBaseName "/a/foo.png") "_s" = false := by
    rfl
  have h2 : strEndsWithS (FormatDetector.texBaseName "/a/foo.png") "_n" = false := by
    rfl
  have h3 : strEndsWithS (FormatDetector.texBaseName "/a/foo.png") "_mer" = false := by
    rfl
  have h4 : FormatDetector.hasSpecularTexture onlyBaseFs "/a/foo.png" = false := by
    rfl
  have h5 : FormatDetector.hasNormalTexture onlyBaseFs "/a/foo.png" = false := by
    rfl
  have h6 : FormatDetector.hasMERTexture onlyBaseFs "/a/foo.png" = false := by
    rfl
  have h7 : FormatDetector.hasBaseTexture onlyBaseFs "/a/foo.png" = true := by
    rfl
  have hconf : FormatDetector.detectConfidences onlyBaseFs "/a/foo.png" =
      (1 / 10, 1 / 10) := by
    rw [FormatDetector.detectConfidences, h1, h2, h3, h4, h5, h6, h7]
    norm_num [FormatDetector.confidenceScores]
  refine ⟨by rw [hconf], by rw [hconf]; norm_num, ?_⟩
  rw [detectFormat_format_eq, hconf]
  unfold FormatDetector.formatFromConfidences
  norm_num

/-- A fault in the `convertTexture` pipeline is raised before
`success` is ever set: the carried result still has `success = false`. -/
theorem convertTextureBody_error_success (env : Env) (mer : String)
    (c o : Option String) (opts : ConversionOptions) (r0 : ConversionResult)
    (h0 : r0.success = false) (st : ConversionResult) (msg : String)
    (h : PBRConverter.convertTextureBody env mer c o opts r0 =
      Except.error (st, msg)) : st.success = false := by
  unfold PBRConverter.convertTextureBody at h
  dsimp only at h
  repeat' split at h
  all_goals
    first
      | exact Except.noConfusion h
      | (simp only [Except.error.injEq, Prod.mk.injEq] at h
         obtain ⟨h1, h2⟩ := h
         subst h1
         simp [pushMsg, h0])

/-- A fault in the `convertAuto` pipeline leaves `success = false`. -/
theorem convertAutoBody_error_success (env : Env) (p : String)
    (o : Option String) (opts : ConversionOptions) (det : DetectionResult)
    (direction : ConversionDirection) (r0 : ConversionResult)
    (h0 : r0.success = false) (st : ConversionResult) (msg : String)
    (h : BidirectionalConverter.convertAutoBody env p o opts det direction r0 =
      Except.error (st, msg)) : st.success = false := by
  unfold BidirectionalConverter.convertAutoBody at h
  dsimp only at h
  repeat' split at h
  all_goals
    first
      | exact Except.noConfusion h
      | (simp only [Except.error.injEq, Prod.mk.injEq] at h
         obtain ⟨h1, h2⟩ := h
         subst h1
         simp [pushMsg, h0])

/-- A fault in the heightmap step leaves `success = false`. -/
theorem heightStep_error_success {env : Env} {nt : TextureData}
    {d bp ext : String} {opts : ConversionOptions} {r st : ConversionResult}
    {msg : String} (h0 : r.success = false)
    (h : BidirectionalConverter.heightStep env nt d bp ext opts r =
      Except.error (st, msg)) : st.success = false := by
  unfold BidirectionalConverter.heightStep at h
  dsimp only at h
  repeat' split at h
  all_goals
    first
      | exact Except.noConfusion h
      | (simp only [Except.error.injEq, Prod.mk.injEq] at h
         obtain ⟨h1, h2⟩ := h
         subst h1
         simp [pushMsg, h0])

/-- The heightmap step never sets `success`. -/
theorem heightStep_ok_success {env : Env} {nt : TextureData}
    {d bp ext : String} {opts : ConversionOptions} {r r2 : ConversionResult}
    (h0 : r.success = false)
    (h : BidirectionalConverter.heightStep env nt d bp ext opts r =
      Except.ok r2) : r2.success = false := by
  unfold BidirectionalConverter.heightStep at h
  dsimp only at h
  repeat' split at h
  all_goals
    first
      | exact Except.noConfusion h
      | (simp only [Except.ok.injEq] at h
         subst h
         simp [pushMsg, h0])

/-- A fault in the AO-baking step leaves `success = false`. -/
theorem bakeStep_error_success {env : Env} {nb : List Nat}
    {bt : TextureData} {d bp ext : String} {opts : ConversionOptions}
    {r st : ConversionResult} {msg : String} (h0 : r.success = false)
    (h : BidirectionalConverter.bakeStep env nb bt d bp ext opts r =
      Except.error (st, msg)) : st.success = false := by
  unfold BidirectionalConverter.bakeStep at h
  dsimp only at h
  repeat' split at h
  all_goals
    first
      | exact Except.noConfusion h
      | (simp only [Except.error.injEq, Prod.mk.injEq] at h
         obtain ⟨h1, h2⟩ := h
         subst h1
         simp [pushMsg, h0])

/-- A fault in the `convertLabPBRToBedrock` pipeline leaves
`success = false`. -/
theorem convertLabPBRToBedrockBody_error_success (env : Env)
    (s n b : String) (o : Option String) (opts : ConversionOptions)
    (r0 : ConversionResult) (h0 : r0.success = false)
    (st : ConversionResult) (msg : String)
    (h : BidirectionalConverter.convertLabPBRToBedrockBody env s n b o opts r0 =
      Except.error (st, msg)) : st.success = false := by
  unfold BidirectionalConverter.convertLabPBRToBedrockBody at h
  dsimp only at h
  repeat' split at h
  all_goals
    first
      | exact Except.noConfusion h
      | (simp only [Except.error.injEq, Prod.mk.injEq] at h
         obtain ⟨h1, h2⟩ := h
         subst h1
         simp [pushMsg, h0])
      | (rename_i p heq
         rw [h] at heq
         exact heightStep_error_success (by simp [pushMsg, h0]) heq)
      | (rename_i rmid heqH xB p heqB
         rw [h] at heqB
         exact bakeStep_error_success
           (heightStep_ok_success (by simp [pushMsg, h0]) heqH) heqB)

/-- C9: no fault escapes a top-level conversion call: whenever the
pipeline body of `convertTexture`, `convertAuto` or
`convertLabPBRToBedrock` faults, the call still returns a
`ConversionResult` equal to the accumulated result with
`Error: <message>` appended to its message sequence, and with
`success = false`. -/
theorem c9_conversion_calls_catch_faults :
    (∀ env mer c o opts st msg,
      PBRConverter.convertTextureBody env mer c o opts
          (PBRConverter.convertTextureInit mer) = Except.error (st, msg) →
      PBRConverter.convertTexture env mer c o opts =
        { st with messages := st.messages ++ ["Error: " ++ msg] } ∧
      (PBRConverter.convertTexture env mer c o opts).success = false) ∧
    (∀ env p o opts st msg,
      BidirectionalConverter.convertAutoBody env p o opts
          (FormatDetector.detectFormat env.fsExists p)
          (BidirectionalConverter.directionOf opts
            (FormatDetector.detectFormat env.fsExists p))
          (BidirectionalConverter.convertAutoInit p
            (FormatDetector.detectFormat env.fsExists p)
            (BidirectionalConverter.directionOf opts
              (FormatDetector.detectFormat env.fsExists p))) =
        Except.error (st, msg) →
      BidirectionalConverter.convertAuto env p o opts =
        { st with messages := st.messages ++ ["Error: " ++ msg] } ∧
      (BidirectionalConverter.convertAuto env p o opts).success = false) ∧
    (∀ env s n b o opts st msg,
      BidirectionalConverter.convertLabPBRToBedrockBody env s n b o opts
          (BidirectionalConverter.convertLabPBRInit s) = Except.error (st, msg) →
      BidirectionalConverter.convertLabPBRToBedrock env s n b o opts =
        { st with messages := st.messages ++ ["Error: " ++ msg] } ∧
      (BidirectionalConverter.convertLabPBRToBedrock env s n b o opts).success
        = false) := by
  refine ⟨?_, ?_, ?_⟩
  · intro env mer c o opts st msg h
    have hsucc : st.success = false :=
      convertTextureBody_error_success env mer c o opts _ rfl st msg h
    have heq : PBRConverter.convertTexture env mer c o opts =
        runCatch (PBRConverter.convertTextureBody env mer c o opts
          (PBRConverter.convertTextureInit mer)) := rfl
    rw [heq, h]
    exact ⟨rfl, hsucc⟩
  · intro env p o opts st msg h
    have hsucc : st.success = false :=
      convertAutoBody_error_success env p o opts _ _ _ rfl st msg h
    have heq : BidirectionalConverter.convertAuto env p o opts =
        runCatch (BidirectionalConverter.convertAutoBody env p o opts
          (FormatDetector.detectFormat env.fsExists p)
          (BidirectionalConverter.directionOf opts
            (FormatDetector.detectFormat env.fsExists p))
          (BidirectionalConverter.convertAutoInit p
            (FormatDetector.detectFormat env.fsExists p)
            (BidirectionalConverter.directionOf opts
              (FormatDetector.detectFormat env.fsExists p)))) := rfl
    rw [heq, h]
    exact ⟨rfl, hsucc⟩
  · intro env s n b o opts st msg h
    have hsucc : st.success = false :=
      convertLabPBRToBedrockBody_error_success env s n b o opts _ rfl st msg h
    have heq : BidirectionalConverter.convertLabPBRToBedrock env s n b o opts =
        runCatch (BidirectionalConverter.convertLabPBRToBedrockBody env s n b
          o opts (BidirectionalConverter.convertLabPBRInit s)) := rfl
    rw [heq, h]
    exact ⟨rfl, hsucc⟩

/-- Witness for C9: in an environment where every collaborator call
fails, each of the three conversion calls returns normally with
`success = false`. -/
theorem c9_conversion_calls_catch_faults_witness :
    (PBRConverter.convertTexture envFail "/a/x_mer.png" none none
      noOptions).success = false ∧
    (BidirectionalConverter.convertAuto envFail "/a/x.png" none
      optsAuto).success = false ∧
    (BidirectionalConverter.convertLabPBRToBedrock envFail "/a/x_s.png"
      "/a/x_n.png" "/a/x.png" none noOptions).success = false :=
  ⟨(c9_conversion_calls_catch_faults.1 envFail "/a/x_mer.png" none none
      noOptions _ _ rfl).2,
   (c9_conversion_calls_catch_faults.2.1 envFail "/a/x.png" none optsAuto
      _ _ rfl).2,
   (c9_conversion_calls_catch_faults.2.2 envFail "/a/x_s.png" "/a/x_n.png"
      "/a/x.png" none noOptions _ _ rfl).2⟩

end PBRConv
